import Mathlib

/-!
Verification development for the ECE-Lab-USB-MultiTool firmware core
(STM32H5 oscilloscope / AWG / logic-analyzer multitool).

Shallow embedding of:
* the USB command decoder `GotCDC_64B_Packet` and its helpers
  (`SendAck`, `changeADCmode`, `changeSamplingtime`, bulk LUT transfer),
* the streaming scheduler in `main`'s while-loop (trigger state machines
  plus the send block) and `sendData`,
* the oscilloscope analog-watchdog interrupt handlers `ADC1_IRQHandler`
  and `ADC2_IRQHandler`,
* the logic-analyzer per-sample capture callback
  `HAL_TIM_PWM_PulseFinishedCallback`.

C fixed-width globals are represented as `Nat` values kept below their
width by every write (`% 65536` for `uint16_t`, `% 256` for `uint8_t`);
C arrays are represented as total maps `Nat → Nat`; registers written by
the code are explicit fields of the machine state `Sys`.  USB output
traffic is modelled as a list of abstract outgoing frames (`Out`).
Hardware-maintained facts (pending interrupt flags in ADC->ISR, the GPIO
input port `GPIOF->IDR`) enter as explicit arguments of the handlers.
-/

/-- Update of a C array modelled as a total map. -/
def fupd (f : Nat → Nat) (i v : Nat) : Nat → Nat :=
  fun j => if j = i then v else f j

/-- `uint16_t` truncation of a subtraction `a - b` (two's complement wrap),
as performed when the int difference of two `uint16_t` values is stored
back into a 16-bit location such as a basic-timer counter. -/
def u16sub (a b : Nat) : Nat :=
  (a % 65536 + 65536 - b % 65536) % 65536

/-- `HAL_GPIO_TogglePin` on a pin modelled as 0/1. -/
def toggle (n : Nat) : Nat := if n = 0 then 1 else 0

/-- Arithmetic shift right by 4, as gcc compiles `x >> 4` on a
(possibly negative) `int`: a flooring division by 16. -/
def sar4 (x : Int) : Int := Int.fdiv x 16

/-- `enum triggerStates{triggerState, postTrigger, preTrigger, noTrigger}`
from main.c. -/
inductive TrigStates
  | triggerState
  | postTrigger
  | preTrigger
  | noTrigger
deriving DecidableEq, Repr

/-- An incoming 64-byte USB frame: the raw bytes, as handed to
`GotCDC_64B_Packet`.  Reads mask each byte to 8 bits. -/
structure Frame where
  bytes : List Nat
deriving DecidableEq, Repr

/-- Byte `i` of a frame (`uint8_t` read). -/
def byteAt (p : Frame) (i : Nat) : Nat := (p.bytes.getD i 0) % 256

/-- Little-endian `uint16_t` field at byte offset `i` of the packed
`RECV_Packet` union. -/
def u16At (p : Frame) (i : Nat) : Nat := byteAt p i + 256 * byteAt p (i + 1)

/-- Little-endian `uint32_t` field at byte offset `i`. -/
def u32At (p : Frame) (i : Nat) : Nat :=
  byteAt p i + 256 * byteAt p (i + 1) + 65536 * byteAt p (i + 2) +
    16777216 * byteAt p (i + 3)

/-- Outgoing USB traffic, one constructor per distinct frame the firmware
transmits: the acknowledgment frame built by `SendAck`
(`packet_type = 0`, `ack_string = "STMAWG23"`), the `"nopacket"`
diagnostic, and the streaming `DATA_Packet` built by `sendData`
(`packet_type = 5`, the two cursor fields, then `datalength` 16-bit
samples from each of `adc_buff`, `adc_buff1` and `Logic_buff`). -/
inductive Out
  | ack
  | nopacket
  | data (adcpos logicpos : Nat) (oscch1 oscch2 logic : List Nat)
deriving DecidableEq, Repr

/-- `ADC_ISR_AWD1` on STM32H5: bit 7. -/
def ADC_ISR_AWD1 : Nat := 128

/-- `ADC_ISR_AWD2` on STM32H5: bit 8. -/
def ADC_ISR_AWD2 : Nat := 256

/-- `#define ADC_BUFF 30000` (main.c). -/
def ADC_BUFF : Nat := 30000

/-- `#define LOGIC_BUFF 30000` (main.c). -/
def LOGIC_BUFF : Nat := 30000

/-- `#define HS_STRING_LEN 4` (DACprocess.h). -/
def HS_STRING_LEN : Nat := 4

/-- `const uint8_t HS_STRING[4] = {'I','N','I','T'}` (DACprocess.c). -/
def HS_STRING : List Nat := [73, 78, 73, 84]

/-- Modelled from the spec: `datalength` is defined in `main.h`, which is
not among the sources; the spec fixes the streaming window length at
8 samples ("advance both cursors by a fixed window length (8 samples)",
"8×u16" fields of the outbound data frame). -/
def datalength : Nat := 8

/-- ADC sampling-time codes: the `LL_ADC_SAMPLINGTIME_xCYCLES_5`
constants are the successive SMPR encodings 0..7 on STM32H5. -/
def LL_ADC_SAMPLINGTIME_2CYCLES_5 : Nat := 0
def LL_ADC_SAMPLINGTIME_6CYCLES_5 : Nat := 1
def LL_ADC_SAMPLINGTIME_12CYCLES_5 : Nat := 2
def LL_ADC_SAMPLINGTIME_24CYCLES_5 : Nat := 3
def LL_ADC_SAMPLINGTIME_47CYCLES_5 : Nat := 4
def LL_ADC_SAMPLINGTIME_92CYCLES_5 : Nat := 5
def LL_ADC_SAMPLINGTIME_247CYCLES_5 : Nat := 6
def LL_ADC_SAMPLINGTIME_640CYCLES_5 : Nat := 7

/-- `HAL_TIM_ACTIVE_CHANNEL_1`, the channel tag the HAL passes to
`HAL_TIM_PWM_PulseFinishedCallback` for channel-1 pulse interrupts. -/
def HAL_TIM_ACTIVE_CHANNEL_1 : Nat := 1

/-- The machine state: the firmware's global variables together with the
peripheral registers the embedded code writes.  `uint16_t`/`uint8_t`
globals are `Nat`s (kept in range by every modelled write), C arrays are
total maps, GPIO output pins and register bits are 0/1 `Nat`s or
`Bool`s. -/
structure Sys where
  -- command decoder / USB globals (DACprocess.c, main.c)
  pauseTransmit : Nat
  bulkRecv : Nat                -- BULK_BUFF_RECV (uint16_t)
  bulkChan : Nat                -- which awg_lut row BULK_BUFF points into
  bulkOff : Nat                 -- offset of BULK_BUFF within that row
  lut0 : Nat → Nat              -- awg_lut[0]
  lut1 : Nat → Nat              -- awg_lut[1]
  numSamples : Nat → Nat        -- uint16_t numSamples[2]
  phaseARR : Nat → Nat          -- uint16_t phaseARR[2]
  arrHold : Nat → Nat           -- uint16_t ARR_hold[2]
  -- waveform-generator registers
  tim1ccr1 : Nat
  tim1ccr2 : Nat
  tim6psc : Nat
  tim6arr : Nat
  tim6cnt : Nat
  tim6en : Bool                 -- TIM6->CR1 CEN
  tim7psc : Nat
  tim7arr : Nat
  tim7cnt : Nat
  tim7en : Bool
  dac1Dma : Bool                -- DAC ch1 DMA running
  dac2Dma : Bool
  dac1Len : Nat                 -- length passed to HAL_DAC_Start_DMA ch1
  dac2Len : Nat
  gpioE13 : Nat                 -- AWG ch0 gain pin
  gpioE12 : Nat                 -- AWG ch1 gain pin
  -- oscilloscope front-end GPIO (AcquisitionSet)
  pd2 : Nat
  pd1 : Nat
  pd0 : Nat
  pc12 : Nat
  pc11 : Nat
  pc10 : Nat
  pe7 : Nat
  pg1 : Nat
  pg0 : Nat
  pb10 : Nat
  pe15 : Nat
  pe14 : Nat
  -- debug / indicator pins touched by the modelled code
  pd4 : Nat
  pd5 : Nat
  pd6 : Nat
  pd7 : Nat
  -- ADC sample-rate configuration
  tim8psc : Nat
  tim8arr : Nat
  tim8cnt : Nat
  tim17psc : Nat
  tim17arr : Nat
  tim17cnt : Nat
  adc1SampCh0 : Nat             -- ADC1 channel-0 sampling-time code
  adc2SampCh3 : Nat             -- ADC2 channel-3 sampling-time code
  -- ADC control / analog-watchdog configuration
  adc1Enabled : Bool            -- ADC1->CR ADEN
  adc2Enabled : Bool
  adc1Started : Bool            -- ADC1->CR ADSTART
  adc2Started : Bool
  adc1Dma : Bool                -- ADC1 DMA running (ADCstart/ADCstop)
  adc2Dma : Bool
  dma2Ch0IT : Bool              -- GPDMA2 ch0 TC/HT interrupts enabled
  dma2Ch1IT : Bool
  adc1Awd1IT : Bool
  adc1Awd2IT : Bool
  adc2Awd1IT : Bool
  adc2Awd2IT : Bool
  adc1Awd1Mon : Nat             -- monitored-channel selections
  adc1Awd2Mon : Nat
  adc2Awd1Mon : Nat
  adc2Awd2Mon : Nat
  adc1Awd1High : Int
  adc1Awd1Low : Int
  adc1Awd2High : Int
  adc1Awd2Low : Int
  adc2Awd1High : Int
  adc2Awd1Low : Int
  adc2Awd2High : Int
  adc2Awd2Low : Int
  nvicAdc1 : Bool               -- NVIC enable state of ADC1_IRQn
  -- oscilloscope acquisition state machine
  ADCstate : TrigStates
  triggerType : Nat
  firstTrigger : Nat
  triggerDuration : Nat
  adcpos : Nat
  shadowCount : Nat
  adcsend : Nat
  adc_buff : Nat → Nat
  adc_buff1 : Nat → Nat
  -- logic analyzer
  Logicstate : TrigStates
  Logic_buff : Nat → Nat
  logicpos : Nat
  logicsend : Nat
  logicWritePointer : Nat
  pastValue : Nat
  currentValue : Nat
  trigPin : Nat                 -- uint8_t
  trigEdge : Nat                -- uint8_t
  trigger : Nat
  period16 : Nat
  prescaler16 : Nat
  period32 : Nat
  tim16psc : Nat
  tim16arr : Nat
  tim5arr : Nat
  tim5Running : Bool            -- TIM5 CH1 PWM with interrupt running
  tim16Running : Bool           -- TIM16 base counter with interrupt running

/-- The C globals' static initial values (initializers in main.c /
DACprocess.c / stm32h5xx_it.c; zero-initialized where none is written,
so both `enum triggerStates` globals start at enumerator 0,
`triggerState`).  Used only to build concrete witness states. -/
def Sys.init : Sys where
  pauseTransmit := 0
  bulkRecv := 0
  bulkChan := 0
  bulkOff := 0
  lut0 := fun _ => 0
  lut1 := fun _ => 0
  numSamples := fun _ => 0
  phaseARR := fun _ => 0
  arrHold := fun _ => 0
  tim1ccr1 := 0
  tim1ccr2 := 0
  tim6psc := 0
  tim6arr := 0
  tim6cnt := 0
  tim6en := false
  tim7psc := 0
  tim7arr := 0
  tim7cnt := 0
  tim7en := false
  dac1Dma := false
  dac2Dma := false
  dac1Len := 0
  dac2Len := 0
  gpioE13 := 0
  gpioE12 := 0
  pd2 := 0
  pd1 := 0
  pd0 := 0
  pc12 := 0
  pc11 := 0
  pc10 := 0
  pe7 := 0
  pg1 := 0
  pg0 := 0
  pb10 := 0
  pe15 := 0
  pe14 := 0
  pd4 := 0
  pd5 := 0
  pd6 := 0
  pd7 := 0
  tim8psc := 0
  tim8arr := 0
  tim8cnt := 0
  tim17psc := 0
  tim17arr := 0
  tim17cnt := 0
  adc1SampCh0 := 0
  adc2SampCh3 := 0
  adc1Enabled := false
  adc2Enabled := false
  adc1Started := false
  adc2Started := false
  adc1Dma := false
  adc2Dma := false
  dma2Ch0IT := false
  dma2Ch1IT := false
  adc1Awd1IT := false
  adc1Awd2IT := false
  adc2Awd1IT := false
  adc2Awd2IT := false
  adc1Awd1Mon := 0
  adc1Awd2Mon := 0
  adc2Awd1Mon := 0
  adc2Awd2Mon := 0
  adc1Awd1High := 0
  adc1Awd1Low := 0
  adc1Awd2High := 0
  adc1Awd2Low := 0
  adc2Awd1High := 0
  adc2Awd1Low := 0
  adc2Awd2High := 0
  adc2Awd2Low := 0
  nvicAdc1 := true
  ADCstate := .triggerState
  triggerType := 0
  firstTrigger := 0
  triggerDuration := 100
  adcpos := 0
  shadowCount := 0
  adcsend := 0
  adc_buff := fun _ => 0
  adc_buff1 := fun _ => 0
  Logicstate := .triggerState
  Logic_buff := fun _ => 0
  logicpos := 0
  logicsend := 0
  logicWritePointer := 0
  pastValue := 0
  currentValue := 0
  trigPin := 0
  trigEdge := 0
  trigger := 0
  period16 := 65535
  prescaler16 := 1
  period32 := 36000
  tim16psc := 0
  tim16arr := 0
  tim5arr := 0
  tim5Running := false
  tim16Running := false

/-- Value driven onto a GPIO output by `HAL_GPIO_WritePin` when handed a
C integer: any nonzero argument sets the pin. -/
def pinState (v : Nat) : Nat := if v = 0 then 0 else 1

/-- `LL_ADC_AWD_CHANNEL_0_REG` (ADC1 monitors channel 0). -/
def LL_ADC_AWD_CHANNEL_0_REG : Nat := 0

/-- `LL_ADC_AWD_CHANNEL_3_REG` (ADC2 monitors channel 3). -/
def LL_ADC_AWD_CHANNEL_3_REG : Nat := 3

/-- `changeSamplingtime` (DACprocess.c): map a sample-time code 0..7 to
the `LL_ADC_SetChannelSamplingTime` calls on ADC1 channel 0 and ADC2
channel 3; any other code falls through the `default:` and changes
nothing. -/
def changeSamplingtime (sampletime : Nat) (s : Sys) : Sys :=
  if sampletime = 0 then
    { s with adc1SampCh0 := LL_ADC_SAMPLINGTIME_2CYCLES_5,
             adc2SampCh3 := LL_ADC_SAMPLINGTIME_2CYCLES_5 }
  else if sampletime = 1 then
    { s with adc1SampCh0 := LL_ADC_SAMPLINGTIME_6CYCLES_5,
             adc2SampCh3 := LL_ADC_SAMPLINGTIME_6CYCLES_5 }
  else if sampletime = 2 then
    { s with adc1SampCh0 := LL_ADC_SAMPLINGTIME_12CYCLES_5,
             adc2SampCh3 := LL_ADC_SAMPLINGTIME_12CYCLES_5 }
  else if sampletime = 3 then
    { s with adc1SampCh0 := LL_ADC_SAMPLINGTIME_24CYCLES_5,
             adc2SampCh3 := LL_ADC_SAMPLINGTIME_24CYCLES_5 }
  else if sampletime = 4 then
    { s with adc1SampCh0 := LL_ADC_SAMPLINGTIME_47CYCLES_5,
             adc2SampCh3 := LL_ADC_SAMPLINGTIME_47CYCLES_5 }
  else if sampletime = 5 then
    { s with adc1SampCh0 := LL_ADC_SAMPLINGTIME_92CYCLES_5,
             adc2SampCh3 := LL_ADC_SAMPLINGTIME_92CYCLES_5 }
  else if sampletime = 6 then
    { s with adc1SampCh0 := LL_ADC_SAMPLINGTIME_247CYCLES_5,
             adc2SampCh3 := LL_ADC_SAMPLINGTIME_247CYCLES_5 }
  else if sampletime = 7 then
    { s with adc1SampCh0 := LL_ADC_SAMPLINGTIME_640CYCLES_5,
             adc2SampCh3 := LL_ADC_SAMPLINGTIME_640CYCLES_5 }
  else s

/-- `changeADCmode` (DACprocess.c): map a sample-rate mode code to the
TIM8 (ADC trigger) and TIM17 (shadow) period/prescaler registers and a
derived sampling-time code; the `default:` case repeats the `case 0:`
(fastest) configuration.  The C literals are written `N-1`. -/
def changeADCmode (mode : Nat) (s : Sys) : Sys :=
  if mode = 0 then
    changeSamplingtime 0
      { s with tim8psc := 25 - 1, tim8arr := 2 - 1,
               tim17psc := 500 - 1, tim17arr := 10 - 1 }
  else if mode = 1 then
    changeSamplingtime 0 { s with tim8arr := 5 - 1, tim17arr := 25 - 1 }
  else if mode = 2 then
    changeSamplingtime 2 { s with tim8arr := 10 - 1, tim17arr := 50 - 1 }
  else if mode = 3 then
    changeSamplingtime 4 { s with tim8arr := 20 - 1, tim17arr := 100 - 1 }
  else if mode = 4 then
    changeSamplingtime 5 { s with tim8arr := 50 - 1, tim17arr := 250 - 1 }
  else if mode = 5 then
    changeSamplingtime 6 { s with tim8arr := 100 - 1, tim17arr := 500 - 1 }
  else if mode = 6 then
    changeSamplingtime 7 { s with tim8arr := 200 - 1, tim17arr := 1000 - 1 }
  else if mode = 7 then
    changeSamplingtime 7 { s with tim8arr := 500 - 1, tim17arr := 2500 - 1 }
  else if mode = 8 then
    changeSamplingtime 7 { s with tim8arr := 1000 - 1, tim17arr := 5000 - 1 }
  else if mode = 9 then
    changeSamplingtime 7 { s with tim8arr := 2000 - 1, tim17arr := 10000 - 1 }
  else if mode = 10 then
    changeSamplingtime 7 { s with tim8arr := 5000 - 1, tim17arr := 25000 - 1 }
  else if mode = 11 then
    changeSamplingtime 7 { s with tim8arr := 10000 - 1, tim17arr := 50000 - 1 }
  else
    changeSamplingtime 0
      { s with tim8psc := 25 - 1, tim8arr := 2 - 1,
               tim17psc := 500 - 1, tim17arr := 10 - 1 }

/-- `disableDMAIT` (DACprocess.c) on `handle_GPDMA2_Channel0` (`ch = 0`)
or `handle_GPDMA2_Channel1` (`ch = 1`): turn off the TC and HT
interrupts of the ADC DMA channel. -/
def disableDMAIT (ch : Nat) (s : Sys) : Sys :=
  if ch = 0 then { s with dma2Ch0IT := false } else { s with dma2Ch1IT := false }

/-- `enableDMAIT` (DACprocess.c). -/
def enableDMAIT (ch : Nat) (s : Sys) : Sys :=
  if ch = 0 then { s with dma2Ch0IT := true } else { s with dma2Ch1IT := true }

/-- `enableAWDIT` (DACprocess.c) on ADC1 (`adc = 1`) or ADC2 (`adc = 2`):
enable both analog-watchdog interrupts (the pending-flag clears write to
hardware-owned ISR bits, which are inputs of the interrupt model). -/
def enableAWDIT (adc : Nat) (s : Sys) : Sys :=
  if adc = 1 then { s with adc1Awd1IT := true, adc1Awd2IT := true }
  else { s with adc2Awd1IT := true, adc2Awd2IT := true }

/-- `disableAWDIT` (DACprocess.c). -/
def disableAWDIT (adc : Nat) (s : Sys) : Sys :=
  if adc = 1 then { s with adc1Awd1IT := false, adc1Awd2IT := false }
  else { s with adc2Awd1IT := false, adc2Awd2IT := false }

/-- `ADCstop` (main.c): stop both ADC DMA transfers. -/
def ADCstop (s : Sys) : Sys :=
  { s with adc1Dma := false, adc2Dma := false }

/-- `ADCstart` (main.c): restart both ADC DMA transfers, clear the
pending AWD flags, raise PD6, zero and force-update TIM8/TIM17, and
reset the `adcpos`/`shadowCount` counters. -/
def ADCstart (s : Sys) : Sys :=
  { s with adc1Dma := true, adc2Dma := true,
           pd6 := 1,
           tim8cnt := 0, tim17cnt := 0,
           adcpos := 0, shadowCount := 0 }

/-- `changeLogic` (main.c): `MX_TIM16_Init(period16, prescaler16)` and
`MX_TIM5_Init(period32)` reprogram the logic capture timers from the
current globals. -/
def changeLogic (s : Sys) : Sys :=
  { s with tim16arr := s.period16, tim16psc := s.prescaler16,
           tim5arr := s.period32 }

/-- The handshake comparison loop of `GotCDC_64B_Packet`:
`int match = 1; for (i < HS_STRING_LEN) if (magic[i] != HS_STRING[i])
match = 0;` where `magic` starts at byte 1 of the frame. -/
def hsMatch (p : Frame) : Nat :=
  (List.range HS_STRING_LEN).foldl
    (fun m i => if byteAt p (1 + i) ≠ HS_STRING.getD i 0 then 0 else m) 1

/-- `memcpy(BULK_BUFF, ptr, 64)`: copy the 64 frame bytes into a LUT row
at the current bulk offset. -/
def memcpy64 (f : Nat → Nat) (off : Nat) (p : Frame) : Nat → Nat :=
  (List.range 64).foldl (fun g i => fupd g (off + i) (byteAt p i)) f

/-- The `packet_type == 0` (Handshake) branch of `GotCDC_64B_Packet`:
compare the embedded magic string, ack only on match, then toggle
PD6. -/
def handleHandshake (p : Frame) (s : Sys) : Sys × List Out :=
  let m := hsMatch p
  let outs := if m ≠ 0 then [Out.ack] else []
  ({ s with pd6 := toggle s.pd6 }, outs)

/-- The `packet_type == 1` (WaveformSet) branch of `GotCDC_64B_Packet`:
`SendAck()`, then program the selected channel's compare offset, timer
period/prescaler, LUT length, phase and gain, arm the bulk LUT
transfer, and restart both generator channels phase-synchronized. -/
def handleWaveformSet (p : Frame) (s : Sys) : Sys × List Out :=
  let chan := byteAt p 1
  let gain := byteAt p 2
  let psc := u16At p 3
  let arr := u16At p 5
  let ccrOffset := u16At p 7
  let s : Sys := { s with numSamples := fupd s.numSamples chan (u16At p 9),
                          phaseARR := fupd s.phaseARR chan (u16At p 11) }
  let s : Sys := { s with
    bulkRecv := if s.numSamples chan < 32 then 128
                else (s.numSamples chan * 2) % 65536,
    bulkChan := chan, bulkOff := 0 }
  let s : Sys :=
    if chan = 0 then
      { s with tim1ccr1 := ccrOffset, tim6arr := arr, tim6psc := psc,
               arrHold := fupd s.arrHold 0 arr,
               gpioE13 := pinState gain }
    else
      { s with tim1ccr2 := ccrOffset, tim7arr := arr, tim7psc := psc,
               arrHold := fupd s.arrHold 1 arr,
               gpioE12 := pinState gain }
  -- __HAL_TIM_DISABLE on both timers
  let s : Sys := { s with tim6en := false, tim7en := false }
  -- HAL_DAC_Stop_DMA / HAL_DAC_Start_DMA on both channels
  let s : Sys := { s with dac1Dma := true, dac2Dma := true,
                          dac1Len := s.numSamples 0, dac2Len := s.numSamples 1 }
  -- TIM6->EGR = TIM_EGR_UG; TIM7->EGR = TIM_EGR_UG (counters reinit)
  let s : Sys := { s with tim6cnt := 0, tim7cnt := 0 }
  -- TIM6->CNT = phaseARR[0] - ARR_hold[1]; TIM7->CNT = phaseARR[1] - ARR_hold[0]
  let s : Sys := { s with tim6cnt := u16sub (s.phaseARR 0) (s.arrHold 1),
                          tim7cnt := u16sub (s.phaseARR 1) (s.arrHold 0) }
  -- CR1 |= CEN on both timers, back to back
  let s : Sys := { s with tim6en := true, tim7en := true }
  (s, [Out.ack])

/-- The `packet_type == 2` (AcquisitionSet) branch of
`GotCDC_64B_Packet`: `SendAck()`, front-end GPIO, sample-rate mode,
trigger mode, restart acquisition.  (The `sampletime` payload byte is
read into a local but all its uses are commented out.) -/
def handleAcquisitionSet (p : Frame) (s : Sys) : Sys × List Out :=
  let chan := byteAt p 1
  let adcmode := byteAt p 2
  let triggermode := byteAt p 3
  let triggerval := u16At p 4
  let offv := byteAt p 7
  let att := byteAt p 8
  let amp10 := byteAt p 9
  let amp5 := byteAt p 10
  let amp2_5 := byteAt p 11
  let amp1 := byteAt p 12
  let s : Sys :=
    if chan = 0 then
      { s with pd2 := pinState offv, pd1 := pinState att,
               pd0 := pinState amp10, pc12 := pinState amp5,
               pc11 := pinState amp2_5, pc10 := pinState amp1 }
    else s
  let s : Sys :=
    if chan = 1 then
      { s with pe7 := pinState offv, pg1 := pinState att,
               pg0 := pinState amp10, pb10 := pinState amp5,
               pe15 := pinState amp2_5, pe14 := pinState amp1 }
    else s
  let s := ADCstop s
  let s := changeADCmode adcmode s
  let s : Sys :=
    if triggermode = 0 then
      -- free-run: stop conversions, AWD interrupts off, DMA interrupts on
      let s : Sys := { s with ADCstate := .noTrigger,
                              adc1Started := false, adc2Started := false }
      let s := disableAWDIT 1 s
      let s := disableAWDIT 2 s
      let s := enableDMAIT 0 s
      enableDMAIT 1 s
    else if triggermode = 1 then
      -- rising edge: AWD2 window shifted below AWD1
      let s : Sys := { s with ADCstate := .preTrigger,
                              adc1Started := true, adc2Started := true }
      let s := disableDMAIT 0 s
      let s := disableDMAIT 1 s
      if chan = 0 then
        let s : Sys := { s with
          adc1Awd1Mon := LL_ADC_AWD_CHANNEL_0_REG,
          adc1Awd2Mon := LL_ADC_AWD_CHANNEL_0_REG,
          adc1Awd1High := (triggerval : Int) + 15,
          adc1Awd1Low := (triggerval : Int) - 15,
          adc1Awd2High := sar4 ((triggerval : Int) - 35),
          adc1Awd2Low := sar4 ((triggerval : Int) - 65) }
        enableAWDIT 1 s
      else
        let s : Sys := { s with
          adc2Awd1Mon := LL_ADC_AWD_CHANNEL_3_REG,
          adc2Awd2Mon := LL_ADC_AWD_CHANNEL_3_REG,
          adc2Awd1High := (triggerval : Int) + 15,
          adc2Awd1Low := (triggerval : Int) - 15,
          adc2Awd2High := sar4 ((triggerval : Int) - 35),
          adc2Awd2Low := sar4 ((triggerval : Int) - 65) }
        enableAWDIT 2 s
    else if triggermode = 2 then
      -- falling edge: AWD2 window shifted above AWD1
      let s : Sys := { s with ADCstate := .preTrigger }
      let s := disableDMAIT 0 s
      let s := disableDMAIT 1 s
      if chan = 0 then
        let s : Sys := { s with
          adc1Awd1Mon := LL_ADC_AWD_CHANNEL_0_REG,
          adc1Awd2Mon := LL_ADC_AWD_CHANNEL_0_REG,
          adc1Awd1High := (triggerval : Int) + 15,
          adc1Awd1Low := (triggerval : Int) - 15,
          adc1Awd2High := sar4 ((triggerval : Int) + 65),
          adc1Awd2Low := sar4 ((triggerval : Int) + 35) }
        enableAWDIT 1 s
      else
        let s : Sys := { s with
          adc2Awd1Mon := LL_ADC_AWD_CHANNEL_3_REG,
          adc2Awd2Mon := LL_ADC_AWD_CHANNEL_3_REG,
          adc2Awd1High := (triggerval : Int) + 15,
          adc2Awd1Low := (triggerval : Int) - 15,
          adc2Awd2High := sar4 ((triggerval : Int) + 65),
          adc2Awd2Low := sar4 ((triggerval : Int) + 35) }
        enableAWDIT 2 s
    else
      { s with ADCstate := .noTrigger }
  let s := ADCstart s
  let s : Sys := { s with adc1Enabled := true, adc2Enabled := true }
  let s : Sys := { s with adc1Started := true, adc2Started := true }
  (s, [Out.ack])

/-- The `packet_type == 3` (LogicSet) branch of `GotCDC_64B_Packet`:
`SendAck()`, store the trigger/clock configuration (note the `uint16_t`
payload fields `triggerpin`/`triggeredge` are truncated into the
`uint8_t` globals `trigPin`/`trigEdge`), then start or stop the logic
capture chain. -/
def handleLogicSet (p : Frame) (s : Sys) : Sys × List Out :=
  let control := byteAt p 1
  let s : Sys := { s with trigPin := u16At p 2 % 256,
                          trigEdge := u16At p 4 % 256,
                          period16 := u16At p 6,
                          prescaler16 := u16At p 8,
                          period32 := u32At p 10 }
  if control = 1 then
    let s : Sys := { s with tim5Running := true }
    let s : Sys := { s with tim5Running := false }
    let s : Sys := { s with tim16Running := false }
    let s := changeLogic s
    let s : Sys := { s with tim5Running := true }
    ({ s with Logicstate := .preTrigger }, [Out.ack])
  else
    let s : Sys := { s with tim5Running := false }
    let s : Sys := { s with tim16Running := false }
    ({ s with Logicstate := .preTrigger }, [Out.ack])

/-- The bulk branch of `GotCDC_64B_Packet` (taken while
`BULK_BUFF_RECV != 0`): memcpy 64 bytes into the LUT, advance
`BULK_BUFF`, decrement `BULK_BUFF_RECV` (a `uint16_t`), and ack when it
reaches zero. -/
def handleBulk (p : Frame) (s : Sys) : Sys × List Out :=
  let s : Sys :=
    if s.bulkChan = 0 then { s with lut0 := memcpy64 s.lut0 s.bulkOff p }
    else { s with lut1 := memcpy64 s.lut1 s.bulkOff p }
  let s : Sys := { s with bulkOff := s.bulkOff + 64,
                          bulkRecv := (s.bulkRecv + 65536 - 64) % 65536 }
  if s.bulkRecv = 0 then (s, [Out.ack]) else (s, [])

/-- The body of `GotCDC_64B_Packet` (DACprocess.c) between the
`pauseTransmit = 1` at entry and the `pauseTransmit = 0` at exit:
dispatch on `packet_type` when no bulk transfer is pending, otherwise
consume the frame as 64 bytes of waveform-LUT bulk data.  Returns the
new state and the list of frames transmitted (`SendAck` → `Out.ack`,
the `"nopacket"` diagnostic → `Out.nopacket`; an unknown tag sends the
diagnostic and mutates nothing). -/
def GotCDC_body (p : Frame) (s : Sys) : Sys × List Out :=
  if s.bulkRecv = 0 then
    if byteAt p 0 = 0 then handleHandshake p s
    else if byteAt p 0 = 1 then handleWaveformSet p s
    else if byteAt p 0 = 2 then handleAcquisitionSet p s
    else if byteAt p 0 = 3 then handleLogicSet p s
    else (s, [Out.nopacket])
  else handleBulk p s

/-- `GotCDC_64B_Packet` (DACprocess.c): sets `pauseTransmit = 1` as its
first statement, runs the dispatch body, and sets `pauseTransmit = 0`
as its last statement on every path. -/
def GotCDC_64B_Packet (p : Frame) (s : Sys) : Sys × List Out :=
  let s1 := { s with pauseTransmit := 1 }
  let r := GotCDC_body p s1
  ({ r.1 with pauseTransmit := 0 }, r.2)

/-- The `datalength`-sample window of a buffer starting at `off`, as
`memcpy`'d by `sendData`. -/
def win (f : Nat → Nat) (off : Nat) : List Nat :=
  (List.range datalength).map fun i => f (off + i)

/-- `sendData(adco, lgco)` (main.c): build the outgoing `DATA_Packet`
(`packet_type = 5`, the two cursor fields, and the `datalength`-sample
windows of `adc_buff`, `adc_buff1` and `Logic_buff`) and hand it to
`CDC_Transmit_FS`. -/
def sendData (adco lgco : Nat) (s : Sys) : Out :=
  Out.data adco lgco (win s.adc_buff adco) (win s.adc_buff1 adco)
    (win s.Logic_buff lgco)

/-- The oscilloscope trigger state machine: the `switch(ADCstate)` at the
top of `main`'s while-loop (guarded by `adcen == 1`; `adcen` is a local
initialized to 1 and never written, so the switch runs every
iteration). -/
def advanceADC (s : Sys) : Sys :=
  match s.ADCstate with
  | .noTrigger =>
      let s :=
        if s.adcpos > 30000 - 1 then
          -- finished transmitting the buffer: reset counters, force TIM17
          -- update, restart the ADC
          let s := { s with adcsend := 0, adcpos := 0, shadowCount := 0,
                            tim17cnt := 0 }
          ADCstart s
        else s
      if s.shadowCount > s.adcpos ∧ s.pauseTransmit = 0 then
        -- (shadowCount - adcpos) > 0 over promoted ints
        { s with adcsend := 1 }
      else s
  | .preTrigger =>
      if s.triggerType = 2 then
        { s with adcpos := 0, shadowCount := 0, ADCstate := .triggerState }
      else s
  | .triggerState =>
      if s.shadowCount ≥ s.triggerDuration then
        { ADCstop s with ADCstate := .postTrigger }
      else s
  | .postTrigger =>
      if s.adcpos > 30000 - 1 then
        let s := { s with adcsend := 0, adcpos := 0, shadowCount := 0,
                          triggerType := 0, ADCstate := .preTrigger }
        let s := ADCstart s
        -- delay_us(10); HAL_NVIC_EnableIRQ(ADC1_IRQn); toggle PD4
        { s with nvicAdc1 := true, pd4 := toggle s.pd4 }
      else if s.pauseTransmit = 0 then
        { s with adcsend := 1 }
      else s

/-- The logic-analyzer state machine: the `switch(Logicstate)` in
`main`'s while-loop.  Only the `postTrigger` case does anything. -/
def advanceLogic (s : Sys) : Sys :=
  match s.Logicstate with
  | .noTrigger => s
  | .preTrigger => s
  | .triggerState => s
  | .postTrigger =>
      let s := { s with trigger := 0 }
      if s.logicpos ≥ LOGIC_BUFF then
        -- done sending: memset the buffer, restart capture
        { s with Logic_buff := fun _ => 0, logicpos := 0, logicsend := 0,
                 tim5Running := true, Logicstate := .preTrigger }
      else
        { s with logicsend := 1, logicpos := (s.logicpos + datalength) % 65536 }

/-- The send block at the bottom of `main`'s while-loop: if either
subsystem is ready and `pauseTransmit == 0`, send one data frame (with
the sentinel 40000 in a cursor field when that subsystem is not ready),
advance the ready cursors by `datalength`, and clear both ready flags. -/
def sendPhase (s : Sys) : Sys × List Out :=
  if (s.adcsend = 1 ∨ s.logicsend = 1) ∧ s.pauseTransmit = 0 then
    let r : Sys × List Out :=
      if s.adcsend = 1 ∧ s.logicsend = 1 then
        ({ s with adcpos := (s.adcpos + datalength) % 65536,
                  logicpos := (s.logicpos + datalength) % 65536 },
         [sendData s.adcpos s.logicpos s])
      else if s.adcsend = 0 ∧ s.logicsend = 1 then
        ({ s with logicpos := (s.logicpos + datalength) % 65536 },
         [sendData 40000 s.logicpos s])
      else if s.adcsend = 1 ∧ s.logicsend = 0 then
        ({ s with adcpos := (s.adcpos + datalength) % 65536 },
         [sendData s.adcpos 40000 s])
      else (s, [])  -- the C's empty else {} arm
    ({ r.1 with adcsend := 0, logicsend := 0 }, r.2)
  else (s, [])

/-- One iteration of `main`'s while-loop: advance the oscilloscope state
machine, advance the logic state machine, then run the send block. -/
def mainLoopIter (s : Sys) : Sys × List Out :=
  sendPhase (advanceLogic (advanceADC s))

/-- The logic-analyzer per-sample capture callback
`HAL_TIM_PWM_PulseFinishedCallback` (main.c), invoked by the HAL for the
TIM5 channel-1 pulse interrupt with `htim->Channel` in `chan` and the
sampled port `GPIOF->IDR` in `idr`.  Note the compound assignments in
the edge tests: `if(pastValue &= trigPin)` and `if(currentValue &=
trigPin)` overwrite the locals being compared; in the rising-edge case
the masked `currentValue` is what is later stored into `Logic_buff`. -/
def HAL_TIM_PWM_PulseFinishedCallback (chan idr : Nat) (s : Sys) : Sys :=
  -- uint16_t currentValue = GPIOF->IDR
  let s := { s with currentValue := idr % 65536 }
  let s : Sys :=
    if chan = HAL_TIM_ACTIVE_CHANNEL_1 then
      if s.Logicstate = .preTrigger then
        let s : Sys :=
          if s.trigEdge = 0 then
            -- if (pastValue &= trigPin) { if (!(currentValue & trigPin)) ... }
            let s := { s with pastValue := s.pastValue &&& s.trigPin }
            if s.pastValue ≠ 0 then
              if s.currentValue &&& s.trigPin = 0 then
                { s with Logicstate := .triggerState, tim16Running := true }
              else s
            else s
          else s
        if s.trigEdge = 1 then
          -- if (!(pastValue & trigPin)) { if (currentValue &= trigPin) ... }
          if s.pastValue &&& s.trigPin = 0 then
            let s : Sys := { s with currentValue := s.currentValue &&& s.trigPin }
            if s.currentValue ≠ 0 then
              { s with Logicstate := .triggerState, tim16Running := true }
            else s
          else s
        else s
      else s
    else s
  -- Logic_buff[logicWritePointer] = currentValue; advance the circular cursor
  let s := { s with
    Logic_buff := fupd s.Logic_buff s.logicWritePointer s.currentValue,
    logicWritePointer := (s.logicWritePointer + 1) % 65536 }
  let s :=
    if s.logicWritePointer ≥ LOGIC_BUFF then { s with logicWritePointer := 0 }
    else s
  { s with pastValue := s.currentValue }

/-- `HAL_TIM_PeriodElapsedCallback` (main.c) for TIM16: the post-trigger
countdown elapsed, so flip the logic machine to `postTrigger`, rewind
`logicpos`, and halt the capture clock and the countdown timer. -/
def HAL_TIM_PeriodElapsedCallback_tim16 (s : Sys) : Sys :=
  { s with Logicstate := .postTrigger, logicpos := 0,
           tim5Running := false, tim16Running := false }

/-- `ADC1_IRQHandler` (stm32h5xx_it.c), oscilloscope channel 0: the
two-stage analog-watchdog confirmation.  `isr` is the hardware-owned
`ADC1->ISR` value at entry.  The first invocation after a reset of
`firstTrigger` only increments `firstTrigger`; afterwards AWD2 sets
`triggerType = 1` and AWD1 promotes 1 to 2, disabling the ADC1
interrupt in NVIC. -/
def ADC1_IRQHandler (isr : Nat) (s : Sys) : Sys :=
  if s.firstTrigger = 0 then
    { s with firstTrigger := s.firstTrigger + 1 }
  else
    let s := if isr &&& ADC_ISR_AWD2 ≠ 0 then { s with triggerType := 1 } else s
    if isr &&& ADC_ISR_AWD1 ≠ 0 then
      if s.triggerType = 1 then
        { s with pd5 := toggle s.pd5, triggerType := 2, firstTrigger := 0,
                 nvicAdc1 := false }
      else s
    else s

/-- `ADC2_IRQHandler` (stm32h5xx_it.c), oscilloscope channel 1.  The C
condition `(ADC2->ISR & ADC_ISR_AWD1) & triggerType==1` binds `==`
tighter than `&`, so it is the bitwise AND of the AWD1 bit (value 128)
with the 0/1 comparison result — embedded literally here. -/
def ADC2_IRQHandler (isr : Nat) (s : Sys) : Sys :=
  let s := if isr &&& ADC_ISR_AWD2 ≠ 0 then { s with triggerType := 1 } else s
  if (isr &&& ADC_ISR_AWD1) &&& (if s.triggerType = 1 then 1 else 0) ≠ 0 then
    -- gotAWD2 and gotAWD1 disable both ADC2 AWD interrupts
    { s with pd5 := toggle s.pd5, triggerType := 2,
             adc2Awd1IT := false, adc2Awd2IT := false }
  else s

/-- An oscilloscope watchdog interrupt event: which ADC interrupt fired,
with the ISR register value it observed. -/
inductive AdcIrqEv
  | a1 (isr : Nat)
  | a2 (isr : Nat)
deriving DecidableEq, Repr

/-- Dispatch one watchdog interrupt event. -/
def adcIrqStep : AdcIrqEv → Sys → Sys
  | .a1 isr, s => ADC1_IRQHandler isr s
  | .a2 isr, s => ADC2_IRQHandler isr s

/-- The event's ISR snapshot has the AWD1 (coarse-window) flag set. -/
def evAWD1 : AdcIrqEv → Prop
  | .a1 isr => isr &&& ADC_ISR_AWD1 ≠ 0
  | .a2 isr => isr &&& ADC_ISR_AWD1 ≠ 0

/-- The event's ISR snapshot has the AWD2 (narrow/shifted-window) flag
set. -/
def evAWD2 : AdcIrqEv → Prop
  | .a1 isr => isr &&& ADC_ISR_AWD2 ≠ 0
  | .a2 isr => isr &&& ADC_ISR_AWD2 ≠ 0

instance : DecidablePred evAWD1 := by
  intro e; cases e <;> simp [evAWD1] <;> infer_instance

instance : DecidablePred evAWD2 := by
  intro e; cases e <;> simp [evAWD2] <;> infer_instance

/-- `BulkOnly s ps s2`: starting from `s`, every frame of `ps` is
consumed by the bulk branch of the command handler (a bulk transfer is
pending at each step), ending in state `s2`.  This is how the waveform
LUT payload that follows a WaveformSet command travels through
`GotCDC_64B_Packet`. -/
inductive BulkOnly : Sys → List Frame → Sys → Prop
  | nil (s : Sys) : BulkOnly s [] s
  | cons {s s2 : Sys} {p : Frame} {ps : List Frame} :
      s.bulkRecv ≠ 0 → BulkOnly (GotCDC_64B_Packet p s).1 ps s2 →
      BulkOnly s (p :: ps) s2

-- Projection facts used to trace single fields through the handler
-- branches without expanding whole states.

lemma handleHandshake_fst_pauseTransmit (p : Frame) (s : Sys) :
    (handleHandshake p s).1.pauseTransmit = s.pauseTransmit := rfl

lemma handleWaveformSet_fst_pauseTransmit (p : Frame) (s : Sys) :
    (handleWaveformSet p s).1.pauseTransmit = s.pauseTransmit := by
  simp only [handleWaveformSet, apply_ite Sys.pauseTransmit, ite_self]

lemma changeSamplingtime_pauseTransmit (m : Nat) (s : Sys) :
    (changeSamplingtime m s).pauseTransmit = s.pauseTransmit := by
  simp only [changeSamplingtime, apply_ite Sys.pauseTransmit, ite_self]

lemma changeADCmode_pauseTransmit (m : Nat) (s : Sys) :
    (changeADCmode m s).pauseTransmit = s.pauseTransmit := by
  simp only [changeADCmode, changeSamplingtime_pauseTransmit,
    apply_ite Sys.pauseTransmit, ite_self]

lemma disableDMAIT_pauseTransmit (ch : Nat) (s : Sys) :
    (disableDMAIT ch s).pauseTransmit = s.pauseTransmit := by
  simp only [disableDMAIT, apply_ite Sys.pauseTransmit, ite_self]

lemma enableDMAIT_pauseTransmit (ch : Nat) (s : Sys) :
    (enableDMAIT ch s).pauseTransmit = s.pauseTransmit := by
  simp only [enableDMAIT, apply_ite Sys.pauseTransmit, ite_self]

lemma enableAWDIT_pauseTransmit (adc : Nat) (s : Sys) :
    (enableAWDIT adc s).pauseTransmit = s.pauseTransmit := by
  simp only [enableAWDIT, apply_ite Sys.pauseTransmit, ite_self]

lemma disableAWDIT_pauseTransmit (adc : Nat) (s : Sys) :
    (disableAWDIT adc s).pauseTransmit = s.pauseTransmit := by
  simp only [disableAWDIT, apply_ite Sys.pauseTransmit, ite_self]

lemma handleAcquisitionSet_fst_pauseTransmit (p : Frame) (s : Sys) :
    (handleAcquisitionSet p s).1.pauseTransmit = s.pauseTransmit := by
  simp only [handleAcquisitionSet, ADCstop, ADCstart,
    changeADCmode_pauseTransmit, changeSamplingtime_pauseTransmit,
    disableAWDIT_pauseTransmit, enableAWDIT_pauseTransmit,
    disableDMAIT_pauseTransmit, enableDMAIT_pauseTransmit,
    apply_ite Sys.pauseTransmit, ite_self]

lemma handleLogicSet_fst_pauseTransmit (p : Frame) (s : Sys) :
    (handleLogicSet p s).1.pauseTransmit = s.pauseTransmit := by
  simp only [handleLogicSet, changeLogic, apply_ite Prod.fst,
    apply_ite Sys.pauseTransmit, ite_self]

lemma handleBulk_fst_pauseTransmit (p : Frame) (s : Sys) :
    (handleBulk p s).1.pauseTransmit = s.pauseTransmit := by
  simp only [handleBulk, apply_ite Prod.fst, apply_ite Sys.pauseTransmit,
    ite_self]

lemma GotCDC_body_fst_pauseTransmit (p : Frame) (s : Sys) :
    (GotCDC_body p s).1.pauseTransmit = s.pauseTransmit := by
  simp only [GotCDC_body, apply_ite Prod.fst, apply_ite Sys.pauseTransmit,
    handleHandshake_fst_pauseTransmit, handleWaveformSet_fst_pauseTransmit,
    handleAcquisitionSet_fst_pauseTransmit, handleLogicSet_fst_pauseTransmit,
    handleBulk_fst_pauseTransmit, ite_self]

lemma hsMatch_eq (p : Frame) :
    hsMatch p =
      if byteAt p 1 = 73 ∧ byteAt p 2 = 78 ∧ byteAt p 3 = 73 ∧ byteAt p 4 = 84
      then 1 else 0 := by
  have hr : List.range HS_STRING_LEN = [0, 1, 2, 3] := rfl
  by_cases h1 : byteAt p 1 = 73 <;> by_cases h2 : byteAt p 2 = 78 <;>
    by_cases h3 : byteAt p 3 = 73 <;> by_cases h4 : byteAt p 4 = 84 <;>
    simp [hsMatch, hr, HS_STRING, h1, h2, h3, h4]

lemma handleHandshake_snd (p : Frame) (s : Sys) :
    (handleHandshake p s).2 =
      if byteAt p 1 = 73 ∧ byteAt p 2 = 78 ∧ byteAt p 3 = 73 ∧ byteAt p 4 = 84
      then [Out.ack] else [] := by
  by_cases hm : byteAt p 1 = 73 ∧ byteAt p 2 = 78 ∧ byteAt p 3 = 73 ∧
      byteAt p 4 = 84 <;>
    simp [handleHandshake, hsMatch_eq, hm]

lemma handleWaveformSet_snd (p : Frame) (s : Sys) :
    (handleWaveformSet p s).2 = [Out.ack] := by
  simp only [handleWaveformSet, apply_ite Prod.snd, ite_self]

lemma handleAcquisitionSet_snd (p : Frame) (s : Sys) :
    (handleAcquisitionSet p s).2 = [Out.ack] := by
  simp only [handleAcquisitionSet, apply_ite Prod.snd, ite_self]

lemma handleLogicSet_snd (p : Frame) (s : Sys) :
    (handleLogicSet p s).2 = [Out.ack] := by
  simp only [handleLogicSet, apply_ite Prod.snd, ite_self]

/-- C3: on every incoming 64-byte frame, `GotCDC_64B_Packet` sets the
global `pauseTransmit` flag to 1 as its first statement (the wrapper's
definitional shape); the body between that write and the exit write
never changes the flag on any dispatch path (so it stays 1 for the
whole duration of handling); and the flag is 0 again when the handler
returns, on every path — including the unknown-tag path and the
bulk-transfer path. -/
theorem gotCDC_pause_discipline (p : Frame) (s : Sys) :
    (GotCDC_64B_Packet p s).1.pauseTransmit = 0 ∧
    (GotCDC_body p { s with pauseTransmit := 1 }).1.pauseTransmit = 1 ∧
    (∀ s2 : Sys, (GotCDC_body p s2).1.pauseTransmit = s2.pauseTransmit) :=
  ⟨rfl, GotCDC_body_fst_pauseTransmit p { s with pauseTransmit := 1 },
   fun s2 => GotCDC_body_fst_pauseTransmit p s2⟩

/-- C2 (counterexample): a frame whose first byte is the recognized tag
0 (Handshake) but whose magic string is not `"INIT"` produces no
outgoing frame at all — not the single acknowledgment frame the claim
asserts for every recognized tag. -/
theorem gotCDC_handshake_mismatch_cex :
    byteAt ⟨[0, 0, 0, 0, 0]⟩ 0 = 0 ∧ Sys.init.bulkRecv = 0 ∧
    (GotCDC_64B_Packet ⟨[0, 0, 0, 0, 0]⟩ Sys.init).2 = [] :=
  ⟨rfl, rfl, by decide⟩

/-- C2 (amended): for a frame arriving while no bulk transfer is
pending, tags 1 (WaveformSet), 2 (AcquisitionSet) and 3 (LogicSet) each
produce exactly one acknowledgment frame; tag 0 (Handshake) produces
exactly one acknowledgment frame if the embedded magic equals `"INIT"`
and no frame otherwise; any unrecognized tag produces exactly one
`"nopacket"` diagnostic frame. -/
theorem gotCDC_output_per_frame (p : Frame) (s : Sys) (hb : s.bulkRecv = 0) :
    ((byteAt p 0 = 1 ∨ byteAt p 0 = 2 ∨ byteAt p 0 = 3) →
      (GotCDC_64B_Packet p s).2 = [Out.ack]) ∧
    (byteAt p 0 = 0 →
      (GotCDC_64B_Packet p s).2 =
        if byteAt p 1 = 73 ∧ byteAt p 2 = 78 ∧ byteAt p 3 = 73 ∧
            byteAt p 4 = 84
        then [Out.ack] else []) ∧
    (byteAt p 0 ≠ 0 → byteAt p 0 ≠ 1 → byteAt p 0 ≠ 2 → byteAt p 0 ≠ 3 →
      (GotCDC_64B_Packet p s).2 = [Out.nopacket]) := by
  refine ⟨?_, ?_, ?_⟩
  · rintro (h | h | h) <;>
      simp [GotCDC_64B_Packet, GotCDC_body, hb, h, handleWaveformSet_snd,
        handleAcquisitionSet_snd, handleLogicSet_snd]
  · intro h
    simp [GotCDC_64B_Packet, GotCDC_body, hb, h, handleHandshake_snd]
  · intro h0 h1 h2 h3
    simp [GotCDC_64B_Packet, GotCDC_body, hb, h0, h1, h2, h3]

/-- C2 (amended, witness): a WaveformSet frame handled outside bulk mode
yields exactly one acknowledgment frame. -/
theorem gotCDC_output_per_frame_witness :
    (GotCDC_64B_Packet ⟨[1]⟩ Sys.init).2 = [Out.ack] :=
  (gotCDC_output_per_frame ⟨[1]⟩ Sys.init rfl).1 (Or.inl rfl)

/-- C6: for a Handshake frame (tag 0) handled outside bulk mode, an
acknowledgment frame is sent if and only if the 4 embedded magic bytes
equal `"INIT"` (73, 78, 73, 84); on a mismatch nothing at all is
sent. -/
theorem handshake_ack_iff_magic (p : Frame) (s : Sys) (hb : s.bulkRecv = 0)
    (ht : byteAt p 0 = 0) :
    ((GotCDC_64B_Packet p s).2 = [Out.ack] ↔
      (byteAt p 1 = 73 ∧ byteAt p 2 = 78 ∧ byteAt p 3 = 73 ∧
        byteAt p 4 = 84)) ∧
    (¬(byteAt p 1 = 73 ∧ byteAt p 2 = 78 ∧ byteAt p 3 = 73 ∧
        byteAt p 4 = 84) →
      (GotCDC_64B_Packet p s).2 = []) := by
  have h : (GotCDC_64B_Packet p s).2 =
      if byteAt p 1 = 73 ∧ byteAt p 2 = 78 ∧ byteAt p 3 = 73 ∧
          byteAt p 4 = 84
      then [Out.ack] else [] := by
    simp [GotCDC_64B_Packet, GotCDC_body, hb, ht, handleHandshake_snd]
  constructor
  · rw [h]
    by_cases hc : byteAt p 1 = 73 ∧ byteAt p 2 = 78 ∧ byteAt p 3 = 73 ∧
        byteAt p 4 = 84 <;> simp [hc]
  · intro hc
    rw [h, if_neg hc]

/-- C6 (witness): the canonical `"INIT"` handshake frame is acked. -/
theorem handshake_ack_iff_magic_witness :
    (GotCDC_64B_Packet ⟨[0, 73, 78, 73, 84]⟩ Sys.init).2 = [Out.ack] :=
  (handshake_ack_iff_magic ⟨[0, 73, 78, 73, 84]⟩ Sys.init rfl rfl).1.mpr
    (by decide)

/-- C8: an AcquisitionSet mode code outside 0..11 falls through the
`default:` of `changeADCmode`, which applies exactly the mode-0
(fastest) configuration — the whole resulting state is identical to the
mode-0 state (in particular TIM8/TIM17 period and prescaler and both
ADC sampling-time codes) — and the command is still acknowledged, not
rejected. -/
theorem changeADCmode_oob_default (mode : Nat) (s : Sys) (h : 11 < mode) :
    changeADCmode mode s = changeADCmode 0 s ∧
    (∀ (p : Frame) (s2 : Sys), s2.bulkRecv = 0 → byteAt p 0 = 2 →
      (GotCDC_64B_Packet p s2).2 = [Out.ack]) := by
  constructor
  · have h0 : mode ≠ 0 := by omega
    have h1 : mode ≠ 1 := by omega
    have h2 : mode ≠ 2 := by omega
    have h3 : mode ≠ 3 := by omega
    have h4 : mode ≠ 4 := by omega
    have h5 : mode ≠ 5 := by omega
    have h6 : mode ≠ 6 := by omega
    have h7 : mode ≠ 7 := by omega
    have h8 : mode ≠ 8 := by omega
    have h9 : mode ≠ 9 := by omega
    have h10 : mode ≠ 10 := by omega
    have h11 : mode ≠ 11 := by omega
    simp [changeADCmode, h0, h1, h2, h3, h4, h5, h6, h7, h8, h9, h10, h11]
  · intro p s2 hb ht
    simp [GotCDC_64B_Packet, GotCDC_body, hb, ht, handleAcquisitionSet_snd]

/-- C8 (witness): mode 12 behaves exactly like mode 0. -/
theorem changeADCmode_oob_default_witness :
    changeADCmode 12 Sys.init = changeADCmode 0 Sys.init ∧ 11 < 12 :=
  ⟨(changeADCmode_oob_default 12 Sys.init (by norm_num)).1, by norm_num⟩

lemma fupd_same (f : Nat → Nat) (i v : Nat) : fupd f i v i = v := by
  simp [fupd]

lemma fupd_other (f : Nat → Nat) (i v j : Nat) (h : j ≠ i) :
    fupd f i v j = f j := by
  simp [fupd, h]

lemma handleBulk_fst_phase_arr (p : Frame) (s : Sys) :
    (handleBulk p s).1.phaseARR = s.phaseARR ∧
    (handleBulk p s).1.arrHold = s.arrHold := by
  constructor <;>
    simp only [handleBulk, apply_ite Prod.fst, apply_ite Sys.phaseARR,
      apply_ite Sys.arrHold, ite_self]

lemma gotCDC_bulk_preserves (p : Frame) (s : Sys) (h : s.bulkRecv ≠ 0) :
    (GotCDC_64B_Packet p s).1.phaseARR = s.phaseARR ∧
    (GotCDC_64B_Packet p s).1.arrHold = s.arrHold := by
  constructor <;>
    simp [GotCDC_64B_Packet, GotCDC_body, h, handleBulk_fst_phase_arr]

lemma BulkOnly_preserves {s s2 : Sys} {ps : List Frame}
    (h : BulkOnly s ps s2) :
    s2.phaseARR = s.phaseARR ∧ s2.arrHold = s.arrHold := by
  induction h with
  | nil => exact ⟨rfl, rfl⟩
  | cons hne _ ih =>
      exact ⟨ih.1.trans (gotCDC_bulk_preserves _ _ hne).1,
             ih.2.trans (gotCDC_bulk_preserves _ _ hne).2⟩

lemma handleWaveformSet_chan0_fields (p : Frame) (s : Sys)
    (hc : byteAt p 1 = 0) :
    (handleWaveformSet p s).1.phaseARR = fupd s.phaseARR 0 (u16At p 11) ∧
    (handleWaveformSet p s).1.arrHold = fupd s.arrHold 0 (u16At p 5) := by
  constructor <;> simp [handleWaveformSet, hc]

lemma handleWaveformSet_chan1_fields (p : Frame) (s : Sys)
    (hc : byteAt p 1 = 1) :
    (handleWaveformSet p s).1.phaseARR = fupd s.phaseARR 1 (u16At p 11) ∧
    (handleWaveformSet p s).1.arrHold = fupd s.arrHold 1 (u16At p 5) ∧
    (handleWaveformSet p s).1.tim6cnt =
      u16sub (fupd s.phaseARR 1 (u16At p 11) 0)
        (fupd s.arrHold 1 (u16At p 5) 1) ∧
    (handleWaveformSet p s).1.tim7cnt =
      u16sub (fupd s.phaseARR 1 (u16At p 11) 1)
        (fupd s.arrHold 1 (u16At p 5) 0) := by
  refine ⟨?_, ?_, ?_, ?_⟩ <;> simp [handleWaveformSet, hc]

lemma gotCDC_waveform_chan0_fields (p : Frame) (s : Sys)
    (hb : s.bulkRecv = 0) (ht : byteAt p 0 = 1) (hc : byteAt p 1 = 0) :
    (GotCDC_64B_Packet p s).1.phaseARR = fupd s.phaseARR 0 (u16At p 11) ∧
    (GotCDC_64B_Packet p s).1.arrHold = fupd s.arrHold 0 (u16At p 5) := by
  constructor <;>
    simp [GotCDC_64B_Packet, GotCDC_body, hb, ht, hc,
      handleWaveformSet_chan0_fields]

/-- C5: after a WaveformSet command for channel 0 (phase φ0, period
ARR0), the interleaved LUT bulk transfer, and a WaveformSet command for
channel 1 (phase φ1, period ARR1), the synchronized restart leaves
`TIM6->CNT = phaseARR[0] − ARR_hold[1]` and
`TIM7->CNT = phaseARR[1] − ARR_hold[0]` in 16-bit timer-counter
arithmetic, where `phaseARR`/`ARR_hold` hold exactly the phase and
period most recently commanded for each channel (φ0/ARR0 for channel 0,
φ1/ARR1 for channel 1; the `AWG_SET` phase field is at byte offset 11,
the period field at byte offset 5). -/
theorem waveform_phase_sync (s0 : Sys) (f0 f1 : Frame) (ps : List Frame)
    (s2 : Sys) (hb0 : s0.bulkRecv = 0)
    (ht0 : byteAt f0 0 = 1) (hc0 : byteAt f0 1 = 0)
    (hBulk : BulkOnly (GotCDC_64B_Packet f0 s0).1 ps s2)
    (hb2 : s2.bulkRecv = 0)
    (ht1 : byteAt f1 0 = 1) (hc1 : byteAt f1 1 = 1) :
    (GotCDC_64B_Packet f1 s2).1.tim6cnt = u16sub (u16At f0 11) (u16At f1 5) ∧
    (GotCDC_64B_Packet f1 s2).1.tim7cnt = u16sub (u16At f1 11) (u16At f0 5) ∧
    (GotCDC_64B_Packet f1 s2).1.phaseARR 0 = u16At f0 11 ∧
    (GotCDC_64B_Packet f1 s2).1.phaseARR 1 = u16At f1 11 ∧
    (GotCDC_64B_Packet f1 s2).1.arrHold 0 = u16At f0 5 ∧
    (GotCDC_64B_Packet f1 s2).1.arrHold 1 = u16At f1 5 := by
  have hpres := BulkOnly_preserves hBulk
  have h0 := gotCDC_waveform_chan0_fields f0 s0 hb0 ht0 hc0
  have hp2 : s2.phaseARR = fupd s0.phaseARR 0 (u16At f0 11) :=
    hpres.1.trans h0.1
  have ha2 : s2.arrHold = fupd s0.arrHold 0 (u16At f0 5) :=
    hpres.2.trans h0.2
  have hr1 : (GotCDC_64B_Packet f1 s2).1.phaseARR =
      fupd s2.phaseARR 1 (u16At f1 11) := by
    simp [GotCDC_64B_Packet, GotCDC_body, hb2, ht1, hc1,
      handleWaveformSet_chan1_fields]
  have hr2 : (GotCDC_64B_Packet f1 s2).1.arrHold =
      fupd s2.arrHold 1 (u16At f1 5) := by
    simp [GotCDC_64B_Packet, GotCDC_body, hb2, ht1, hc1,
      handleWaveformSet_chan1_fields]
  have hr3 : (GotCDC_64B_Packet f1 s2).1.tim6cnt =
      u16sub (fupd s2.phaseARR 1 (u16At f1 11) 0)
        (fupd s2.arrHold 1 (u16At f1 5) 1) := by
    simp [GotCDC_64B_Packet, GotCDC_body, hb2, ht1, hc1,
      handleWaveformSet_chan1_fields]
  have hr4 : (GotCDC_64B_Packet f1 s2).1.tim7cnt =
      u16sub (fupd s2.phaseARR 1 (u16At f1 11) 1)
        (fupd s2.arrHold 1 (u16At f1 5) 0) := by
    simp [GotCDC_64B_Packet, GotCDC_body, hb2, ht1, hc1,
      handleWaveformSet_chan1_fields]
  refine ⟨?_, ?_, ?_, ?_, ?_, ?_⟩
  · rw [hr3, hp2]; simp [fupd]
  · rw [hr4, ha2]; simp [fupd]
  · rw [hr1, hp2]; simp [fupd]
  · rw [hr1]; simp [fupd]
  · rw [hr2, ha2]; simp [fupd]
  · rw [hr2]; simp [fupd]

/-- WaveformSet for channel 0: ARR = 0, numSamples = 32 (so the bulk
transfer is exactly one 64-byte frame), phase = 77. -/
def c5f0 : Frame := ⟨[1, 0, 0, 0, 0, 0, 0, 0, 0, 32, 0, 77, 0]⟩

/-- WaveformSet for channel 1: ARR = 5, numSamples = 32, phase = 200. -/
def c5f1 : Frame := ⟨[1, 1, 0, 0, 0, 5, 0, 0, 0, 32, 0, 200, 0]⟩

/-- One all-zero 64-byte bulk LUT frame. -/
def c5bulk : Frame := ⟨[]⟩

/-- State after the channel-0 WaveformSet command. -/
def c5s1 : Sys := (GotCDC_64B_Packet c5f0 Sys.init).1

/-- State after the 64-byte bulk transfer that follows it. -/
def c5s2 : Sys := (GotCDC_64B_Packet c5bulk c5s1).1

/-- C5 (witness): the concrete two-command round trip, with the bulk
frame in between, lands on the claimed counter values. -/
theorem waveform_phase_sync_witness :
    (GotCDC_64B_Packet c5f1 c5s2).1.tim6cnt =
      u16sub (u16At c5f0 11) (u16At c5f1 5) ∧
    (GotCDC_64B_Packet c5f1 c5s2).1.tim7cnt =
      u16sub (u16At c5f1 11) (u16At c5f0 5) := by
  have h := waveform_phase_sync Sys.init c5f0 c5f1 [c5bulk] c5s2 rfl rfl rfl
    (BulkOnly.cons (by decide) (BulkOnly.nil c5s2)) (by decide) rfl rfl
  exact ⟨h.1, h.2.1⟩

/-- C1: over the two oscilloscope watchdog interrupt handlers
(`ADC1_IRQHandler` for channel 0, `ADC2_IRQHandler` for channel 1), the
trigger-type flag reaches its confirmed value 2 in a step only if the
AWD1 (coarse-window) flag was set in that interrupt's ISR snapshot and
the flag already held the intermediate value 1 — either from an earlier
step or set by AWD2 earlier in the same invocation — and it reaches the
intermediate value 1 in a step only if the AWD2 (narrow/shifted-window)
flag was set.  Together: the engine commits to "triggered" only after
AWD2 and then AWD1 have fired, and the flag reaches 2 by no other
path. -/
theorem trigger_commit_two_stage (e : AdcIrqEv) (s : Sys) :
    ((adcIrqStep e s).triggerType = 2 →
      s.triggerType = 2 ∨ (evAWD1 e ∧ (s.triggerType = 1 ∨ evAWD2 e))) ∧
    ((adcIrqStep e s).triggerType = 1 →
      s.triggerType = 1 ∨ evAWD2 e) := by
  cases e with
  | a1 isr =>
      by_cases hf : s.firstTrigger = 0
      · refine ⟨fun h => Or.inl ?_, fun h => Or.inl ?_⟩ <;>
          simpa [adcIrqStep, ADC1_IRQHandler, hf] using h
      · by_cases h2 : isr &&& ADC_ISR_AWD2 = 0
        · by_cases h1 : isr &&& ADC_ISR_AWD1 = 0
          · refine ⟨fun h => Or.inl ?_, fun h => Or.inl ?_⟩ <;>
              simpa [adcIrqStep, ADC1_IRQHandler, hf, h2, h1] using h
          · by_cases ht : s.triggerType = 1
            · exact ⟨fun _ => Or.inr ⟨h1, Or.inl ht⟩, fun _ => Or.inl ht⟩
            · refine ⟨fun h => Or.inl ?_, fun h => Or.inl ?_⟩ <;>
                simpa [adcIrqStep, ADC1_IRQHandler, hf, h2, h1, ht] using h
        · by_cases h1 : isr &&& ADC_ISR_AWD1 = 0
          · refine ⟨fun h => ?_, fun _ => Or.inr h2⟩
            simp [adcIrqStep, ADC1_IRQHandler, hf, h2, h1] at h
          · exact ⟨fun _ => Or.inr ⟨h1, Or.inr h2⟩, fun _ => Or.inr h2⟩
  | a2 isr =>
      have hz2 : (isr &&& ADC_ISR_AWD1) &&& 1 = 0 := by
        rw [Nat.land_assoc]
        have h128 : ADC_ISR_AWD1 &&& 1 = 0 := by decide
        rw [h128]
        simp
      have hz3 : (isr &&& ADC_ISR_AWD1) % 2 = 0 := by
        rw [← Nat.and_one_is_mod]
        exact hz2
      have hz : ∀ t : Nat,
          ((isr &&& ADC_ISR_AWD1) &&& (if t = 1 then 1 else 0)) = 0 := by
        intro t
        by_cases ht : t = 1
        · rw [ht, if_pos rfl]
          exact hz2
        · rw [if_neg ht]
          simp
      by_cases h2 : isr &&& ADC_ISR_AWD2 = 0
      · refine ⟨fun h => Or.inl ?_, fun h => Or.inl ?_⟩ <;>
          simpa [adcIrqStep, ADC2_IRQHandler, h2, hz, hz2, hz3] using h
      · refine ⟨fun h => ?_, fun _ => Or.inr h2⟩
        simp [adcIrqStep, ADC2_IRQHandler, h2, hz, hz2, hz3] at h

/-- A state one ADC1 invocation past the `firstTrigger` gate. -/
def c1S : Sys := { Sys.init with firstTrigger := 1 }

/-- C1 (witness): an ADC1 interrupt with both watchdog flags set (ISR
value 384 = AWD1 bit 128 + AWD2 bit 256) commits, and the theorem
attributes the commit to AWD1 firing with AWD2 having set the
intermediate value in the same invocation. -/
theorem trigger_commit_two_stage_witness :
    (adcIrqStep (.a1 384) c1S).triggerType = 2 ∧
    (c1S.triggerType = 2 ∨
      (evAWD1 (.a1 384) ∧ (c1S.triggerType = 1 ∨ evAWD2 (.a1 384)))) := by
  refine ⟨by decide, ?_⟩
  exact (trigger_commit_two_stage (.a1 384) c1S).1 (by decide)

/-- C9: in one invocation of the logic-analyzer capture callback (TIM5
channel 1) with the machine in `PreTrigger`, rising-edge trigger
configured (`trigEdge = 1`), the previous sample clear under the
trigger-pin mask and the current sample nonzero under it, the state
becomes `TriggerState` and the TIM16 post-trigger countdown is started
— both within that same invocation. -/
theorem logic_rising_edge_trigger (idr : Nat) (s : Sys)
    (hst : s.Logicstate = .preTrigger) (hedge : s.trigEdge = 1)
    (hpast : s.pastValue &&& s.trigPin = 0)
    (hcur : (idr % 65536) &&& s.trigPin ≠ 0) :
    (HAL_TIM_PWM_PulseFinishedCallback HAL_TIM_ACTIVE_CHANNEL_1 idr
        s).Logicstate = .triggerState ∧
    (HAL_TIM_PWM_PulseFinishedCallback HAL_TIM_ACTIVE_CHANNEL_1 idr
        s).tim16Running = true := by
  constructor <;>
    simp [HAL_TIM_PWM_PulseFinishedCallback, hst, hedge, hpast, hcur,
      apply_ite Sys.Logicstate, apply_ite Sys.tim16Running,
      apply_ite Sys.trigEdge, apply_ite Sys.pastValue,
      apply_ite Sys.trigPin, apply_ite Sys.currentValue, ite_self]

/-- A pre-trigger rising-edge state for the capture-callback
witnesses. -/
def c9S : Sys :=
  { Sys.init with Logicstate := .preTrigger, trigEdge := 1, trigPin := 1,
                  pastValue := 0 }

/-- C9 (witness): port value 3 under mask 1 fires the rising-edge
trigger. -/
theorem logic_rising_edge_trigger_witness :
    (HAL_TIM_PWM_PulseFinishedCallback HAL_TIM_ACTIVE_CHANNEL_1 3
        c9S).Logicstate = .triggerState ∧
    (HAL_TIM_PWM_PulseFinishedCallback HAL_TIM_ACTIVE_CHANNEL_1 3
        c9S).tim16Running = true :=
  logic_rising_edge_trigger 3 c9S rfl rfl (by decide) (by decide)

/-- C10: in one invocation of the logic-analyzer capture callback, when
the machine is in `PreTrigger` with rising-edge trigger configured and
the previous sample clear under the mask, the compound assignment
`currentValue &= trigPin` in the edge test overwrites the sample before
it is stored, so the value written into `Logic_buff` is the raw port
value ANDed with the trigger-pin mask; in every other case the raw port
value itself is stored. -/
theorem logic_sample_mask (idr : Nat) (s : Sys) :
    ((s.Logicstate = .preTrigger ∧ s.trigEdge = 1 ∧
        s.pastValue &&& s.trigPin = 0) →
      (HAL_TIM_PWM_PulseFinishedCallback HAL_TIM_ACTIVE_CHANNEL_1 idr
          s).Logic_buff s.logicWritePointer = (idr % 65536) &&& s.trigPin) ∧
    (¬(s.Logicstate = .preTrigger ∧ s.trigEdge = 1 ∧
        s.pastValue &&& s.trigPin = 0) →
      (HAL_TIM_PWM_PulseFinishedCallback HAL_TIM_ACTIVE_CHANNEL_1 idr
          s).Logic_buff s.logicWritePointer = idr % 65536) := by
  constructor
  · rintro ⟨h1, h2, h3⟩
    simp [HAL_TIM_PWM_PulseFinishedCallback, h1, h2, h3, fupd,
      apply_ite Sys.Logic_buff, apply_ite Sys.logicWritePointer,
      apply_ite Sys.currentValue, apply_ite Sys.trigEdge,
      apply_ite Sys.pastValue, apply_ite Sys.trigPin, ite_self]
  · intro hn
    by_cases h1 : s.Logicstate = .preTrigger
    · by_cases h2 : s.trigEdge = 1
      · have h3 : ¬(s.pastValue &&& s.trigPin = 0) := fun h3 => hn ⟨h1, h2, h3⟩
        simp [HAL_TIM_PWM_PulseFinishedCallback, h1, h2, h3, fupd,
          apply_ite Sys.Logic_buff, apply_ite Sys.logicWritePointer,
          apply_ite Sys.currentValue, apply_ite Sys.trigEdge,
          apply_ite Sys.pastValue, apply_ite Sys.trigPin, ite_self]
      · simp [HAL_TIM_PWM_PulseFinishedCallback, h1, h2, fupd,
          apply_ite Sys.Logic_buff, apply_ite Sys.logicWritePointer,
          apply_ite Sys.currentValue, apply_ite Sys.trigEdge,
          apply_ite Sys.pastValue, apply_ite Sys.trigPin, ite_self]
    · simp [HAL_TIM_PWM_PulseFinishedCallback, h1, fupd,
        apply_ite Sys.Logic_buff, apply_ite Sys.logicWritePointer,
        apply_ite Sys.currentValue, apply_ite Sys.trigEdge,
        apply_ite Sys.pastValue, apply_ite Sys.trigPin, ite_self]

/-- A pre-trigger rising-edge state with the write cursor at 0, for the
masking witness. -/
def c10S : Sys :=
  { Sys.init with Logicstate := .preTrigger, trigEdge := 1, trigPin := 1,
                  pastValue := 0, logicWritePointer := 0 }

/-- C10 (witness): port value 3 under mask 1 is stored masked — the
buffer receives 1, not 3. -/
theorem logic_sample_mask_witness :
    (HAL_TIM_PWM_PulseFinishedCallback HAL_TIM_ACTIVE_CHANNEL_1 3
        c10S).Logic_buff c10S.logicWritePointer = (3 % 65536) &&& c10S.trigPin :=
  (logic_sample_mask 3 c10S).1 (by decide)

lemma advanceLogic_adc_fields (s : Sys) :
    (advanceLogic s).adcpos = s.adcpos ∧ (advanceLogic s).adcsend = s.adcsend ∧
    (advanceLogic s).ADCstate = s.ADCstate ∧
    (advanceLogic s).pauseTransmit = s.pauseTransmit := by
  rcases hL : s.Logicstate <;>
    refine ⟨?_, ?_, ?_, ?_⟩ <;>
    simp [advanceLogic, hL, apply_ite Sys.adcpos, apply_ite Sys.adcsend,
      apply_ite Sys.ADCstate, apply_ite Sys.pauseTransmit, ite_self]

lemma sendPhase_fst_ADCstate (s : Sys) :
    (sendPhase s).1.ADCstate = s.ADCstate := by
  simp [sendPhase, apply_ite Prod.fst, apply_ite Sys.ADCstate, ite_self]

lemma sendPhase_adcpos (s : Sys) :
    (sendPhase s).1.adcpos = s.adcpos ∨
    (sendPhase s).1.adcpos = (s.adcpos + datalength) % 65536 := by
  by_cases hg : (s.adcsend = 1 ∨ s.logicsend = 1) ∧ s.pauseTransmit = 0
  · by_cases h11 : s.adcsend = 1 ∧ s.logicsend = 1
    · exact Or.inr (by simp [sendPhase, hg, h11])
    · by_cases h01 : s.adcsend = 0 ∧ s.logicsend = 1
      · exact Or.inl (by simp [sendPhase, hg, h11, h01])
      · by_cases h10 : s.adcsend = 1 ∧ s.logicsend = 0
        · exact Or.inr (by simp [sendPhase, hg, h11, h01, h10])
        · exact Or.inl (by simp [sendPhase, hg, h11, h01, h10])
  · exact Or.inl (by simp [sendPhase, hg])

lemma advanceADC_adcpos (s : Sys) :
    (advanceADC s).adcpos = s.adcpos ∨ (advanceADC s).adcpos = 0 := by
  rcases hA : s.ADCstate
  · exact Or.inl (by
      simp [advanceADC, hA, ADCstop, apply_ite Sys.adcpos, ite_self])
  · by_cases hr : s.adcpos > 30000 - 1
    · exact Or.inr (by
        simp [advanceADC, hA, ADCstart, hr, apply_ite Sys.adcpos, ite_self])
    · exact Or.inl (by
        simp [advanceADC, hA, ADCstart, hr, apply_ite Sys.adcpos, ite_self])
  · by_cases ht : s.triggerType = 2
    · exact Or.inr (by simp [advanceADC, hA, ht])
    · exact Or.inl (by simp [advanceADC, hA, ht])
  · by_cases hr : s.adcpos > 30000 - 1
    · exact Or.inr (by
        simp [advanceADC, hA, ADCstart, hr, apply_ite Sys.adcpos, ite_self])
    · exact Or.inl (by
        simp [advanceADC, hA, ADCstart, hr, apply_ite Sys.adcpos, ite_self])

lemma advanceADC_reset_cases (s : Sys) (h : (advanceADC s).adcpos = 0)
    (hnz : s.adcpos ≠ 0) :
    (s.ADCstate = .noTrigger ∧ s.adcpos > 30000 - 1) ∨
    (s.ADCstate = .preTrigger ∧ s.triggerType = 2) ∨
    (s.ADCstate = .postTrigger ∧ s.adcpos > 30000 - 1 ∧
      (advanceADC s).ADCstate = .preTrigger) := by
  rcases hA : s.ADCstate
  · exfalso
    apply hnz
    rw [← h]
    simp [advanceADC, hA, ADCstop, apply_ite Sys.adcpos, ite_self]
  · by_cases hr : s.adcpos > 30000 - 1
    · exact Or.inr (Or.inr ⟨rfl, hr, by
        simp [advanceADC, hA, ADCstart, hr, apply_ite Sys.ADCstate,
          ite_self]⟩)
    · exfalso
      apply hnz
      rw [← h]
      simp [advanceADC, hA, ADCstart, hr, apply_ite Sys.adcpos, ite_self]
  · by_cases ht : s.triggerType = 2
    · exact Or.inr (Or.inl ⟨rfl, ht⟩)
    · exfalso
      apply hnz
      rw [← h]
      simp [advanceADC, hA, ht]
  · by_cases hr : s.adcpos > 30000 - 1
    · exact Or.inl ⟨rfl, hr⟩
    · exfalso
      apply hnz
      rw [← h]
      simp [advanceADC, hA, ADCstart, hr, apply_ite Sys.adcpos, ite_self]

/-- C4: in a scheduler iteration whose send block sees `pauseTransmit =
0` and at least one ready flag, exactly one data frame goes out: both
flags set → the frame carries both cursors and all three
`datalength`-sample windows and both cursors advance by `datalength`;
only the oscilloscope ready → the logic cursor field carries the
sentinel 40000 and the logic cursor does not advance; only the logic
analyzer ready → the oscilloscope cursor field carries 40000 and the
oscilloscope cursor does not advance; in all cases both ready flags are
cleared afterwards.  (`s1` is the state at the send block, i.e. after
the two state-machine advances of the same iteration.) -/
theorem scheduler_send_block (s s1 : Sys)
    (hadv : s1 = advanceLogic (advanceADC s))
    (hp : s1.pauseTransmit = 0) :
    ((s1.adcsend = 1 ∧ s1.logicsend = 1) →
      (mainLoopIter s).2 =
        [Out.data s1.adcpos s1.logicpos (win s1.adc_buff s1.adcpos)
          (win s1.adc_buff1 s1.adcpos) (win s1.Logic_buff s1.logicpos)] ∧
      (mainLoopIter s).1.adcpos = (s1.adcpos + datalength) % 65536 ∧
      (mainLoopIter s).1.logicpos = (s1.logicpos + datalength) % 65536) ∧
    ((s1.adcsend = 1 ∧ s1.logicsend = 0) →
      (mainLoopIter s).2 =
        [Out.data s1.adcpos 40000 (win s1.adc_buff s1.adcpos)
          (win s1.adc_buff1 s1.adcpos) (win s1.Logic_buff 40000)] ∧
      (mainLoopIter s).1.adcpos = (s1.adcpos + datalength) % 65536 ∧
      (mainLoopIter s).1.logicpos = s1.logicpos) ∧
    ((s1.adcsend = 0 ∧ s1.logicsend = 1) →
      (mainLoopIter s).2 =
        [Out.data 40000 s1.logicpos (win s1.adc_buff 40000)
          (win s1.adc_buff1 40000) (win s1.Logic_buff s1.logicpos)] ∧
      (mainLoopIter s).1.logicpos = (s1.logicpos + datalength) % 65536 ∧
      (mainLoopIter s).1.adcpos = s1.adcpos) ∧
    ((s1.adcsend = 1 ∨ s1.logicsend = 1) →
      (mainLoopIter s).1.adcsend = 0 ∧ (mainLoopIter s).1.logicsend = 0) := by
  have hm : mainLoopIter s = sendPhase s1 := by
    rw [mainLoopIter, hadv]
  refine ⟨?_, ?_, ?_, ?_⟩
  · rintro ⟨ha, hl⟩
    refine ⟨?_, ?_, ?_⟩ <;> simp [hm, sendPhase, sendData, hp, ha, hl]
  · rintro ⟨ha, hl⟩
    refine ⟨?_, ?_, ?_⟩ <;> simp [hm, sendPhase, sendData, hp, ha, hl]
  · rintro ⟨ha, hl⟩
    refine ⟨?_, ?_, ?_⟩ <;> simp [hm, sendPhase, sendData, hp, ha, hl]
  · intro hor
    constructor <;> simp [hm, sendPhase, hp, hor]

/-- A state whose iteration makes both subsystems ready: free-running
oscilloscope with fresh shadow samples, logic analyzer streaming in
`postTrigger`. -/
def c4S : Sys :=
  { Sys.init with ADCstate := .noTrigger, shadowCount := 100,
                  Logicstate := .postTrigger }

/-- C4 (witness): with both subsystems ready at the send block, the
iteration emits exactly the combined data frame and clears both ready
flags. -/
theorem scheduler_send_block_witness :
    (mainLoopIter c4S).2 =
      [Out.data (advanceLogic (advanceADC c4S)).adcpos
        (advanceLogic (advanceADC c4S)).logicpos
        (win (advanceLogic (advanceADC c4S)).adc_buff
          (advanceLogic (advanceADC c4S)).adcpos)
        (win (advanceLogic (advanceADC c4S)).adc_buff1
          (advanceLogic (advanceADC c4S)).adcpos)
        (win (advanceLogic (advanceADC c4S)).Logic_buff
          (advanceLogic (advanceADC c4S)).logicpos)] ∧
    (mainLoopIter c4S).1.adcsend = 0 ∧ (mainLoopIter c4S).1.logicsend = 0 := by
  have h := scheduler_send_block c4S (advanceLogic (advanceADC c4S)) rfl
    (by decide)
  exact ⟨(h.1 ⟨by decide, by decide⟩).1, h.2.2.2 (Or.inl (by decide))⟩

/-- A pre-trigger state with a confirmed trigger pending and a nonzero
write cursor. -/
def c7S : Sys :=
  { Sys.init with ADCstate := .preTrigger, triggerType := 2, adcpos := 5,
                  Logicstate := .noTrigger }

/-- C7 (counterexample): one scheduler iteration from `c7S` resets the
oscilloscope write cursor to zero although the phase transition taken
is `preTrigger → triggerState` (trigger confirmation), not the
`postTrigger → preTrigger` transition the claim says is the only
resetting transition. -/
theorem adcpos_reset_cex :
    ((mainLoopIter c7S).1.adcpos = 0 ∧ c7S.adcpos ≠ 0) ∧
    ¬(c7S.ADCstate = .postTrigger ∧
      (mainLoopIter c7S).1.ADCstate = .preTrigger) :=
  ⟨⟨by decide, by decide⟩, by decide⟩

/-- C7 (amended): over one scheduler iteration (with the cursor in its
reachable range, below 30008), the oscilloscope write cursor is reset
to zero only by: the `noTrigger` buffer-full re-arm (no phase change),
the `preTrigger → triggerState` trigger confirmation, or the
`postTrigger → preTrigger` completion transition.  (`ADCstart` during
AcquisitionSet handling also rewinds it, outside the scheduler.) -/
theorem adcpos_reset_points (s : Sys) (hwf : s.adcpos < 30008)
    (hz : (mainLoopIter s).1.adcpos = 0) (hnz : s.adcpos ≠ 0) :
    (s.ADCstate = .noTrigger ∧ s.adcpos > 30000 - 1) ∨
    (s.ADCstate = .preTrigger ∧ s.triggerType = 2) ∨
    (s.ADCstate = .postTrigger ∧ s.adcpos > 30000 - 1 ∧
      (mainLoopIter s).1.ADCstate = .preTrigger) := by
  have hm : (mainLoopIter s).1 =
      (sendPhase (advanceLogic (advanceADC s))).1 := rfl
  have h3pos : (advanceLogic (advanceADC s)).adcpos = (advanceADC s).adcpos :=
    (advanceLogic_adc_fields (advanceADC s)).1
  have h3state : (advanceLogic (advanceADC s)).ADCstate =
      (advanceADC s).ADCstate :=
    (advanceLogic_adc_fields (advanceADC s)).2.2.1
  rcases sendPhase_adcpos (advanceLogic (advanceADC s)) with h | h
  · have h2z : (advanceADC s).adcpos = 0 := by
      rw [← h3pos, ← h, ← hm]
      exact hz
    rcases advanceADC_reset_cases s h2z hnz with hc | hc | hc
    · exact Or.inl hc
    · exact Or.inr (Or.inl hc)
    · refine Or.inr (Or.inr ⟨hc.1, hc.2.1, ?_⟩)
      rw [hm, sendPhase_fst_ADCstate, h3state]
      exact hc.2.2
  · exfalso
    rw [hm, h, h3pos] at hz
    rcases advanceADC_adcpos s with h2 | h2 <;> rw [h2] at hz <;>
      simp [datalength] at hz <;> omega

/-- A free-running state at buffer capacity. -/
def c7W : Sys := { Sys.init with ADCstate := .noTrigger, adcpos := 30000 }

/-- C7 (amended, witness): the concrete buffer-full free-run reset is
attributed to the `noTrigger` re-arm case. -/
theorem adcpos_reset_points_witness :
    (c7W.ADCstate = .noTrigger ∧ c7W.adcpos > 30000 - 1) ∨
    (c7W.ADCstate = .preTrigger ∧ c7W.triggerType = 2) ∨
    (c7W.ADCstate = .postTrigger ∧ c7W.adcpos > 30000 - 1 ∧
      (mainLoopIter c7W).1.ADCstate = .preTrigger) :=
  adcpos_reset_points c7W (by decide) (by decide) (by decide)
